import Mathlib

/-!
Shallow embedding of `runmmc.py` from BlenderPhotonics: the `runmmc`
Blender operator that marshals scene data into a photon-transport solver
configuration, invokes the external solver `pmcx.run`, and serializes the
results.  Host state (the Blender scene graph, the file system, the
external solver) is passed in explicitly; raised Python exceptions are
modelled by `Option`, and the externally visible effects of a run are
recorded as an ordered event trace.
-/

/-- The `image` array loaded from `ImageMesh.mat` (line 103); it is passed
through to the solver unchanged, so it is modelled as an opaque 3-D array
of rationals. -/
def VolData : Type := Nat → Nat → Nat → ℚ

/-- A Blender scene object as read by `runmmc.preparemmc`: its name, its
`location`, its `rotation_quaternion` (components ordered w, x, y, z), its
custom properties (`none` models a property whose access raises), and for
mesh objects the mesh-data custom-property values read as
`obj.data[prop].to_list()` (a `none` for the whole `data` field models
`obj.data` itself raising; a `none` entry models a value whose `to_list()`
raises mid-loop). -/
structure BObject where
  name : String
  location : Fin 3 → ℚ
  rotation_quaternion : Fin 4 → ℚ
  mua : Option ℚ := none
  mus : Option ℚ := none
  g : Option ℚ := none
  n : Option ℚ := none
  srcparam1 : Option (Fin 4 → ℚ) := none
  srcparam2 : Option (Fin 4 → ℚ) := none
  srctype : Option String := none
  unitinmm : Option ℚ := none
  data : Option (List (Option (List ℚ))) := none

/-- The host scene state visible to the operator: the ordered collection
`bpy.data.objects` and the active object `bpy.context.object`. -/
structure Scene where
  objects : List BObject
  context_object : Option BObject

/-- Name lookup in `bpy.data.objects` (lines 72 and 81). -/
def findObject (objs : List BObject) (nm : String) : Option BObject :=
  objs.find? fun o => o.name = nm

/-- The `try` body of lines 72-74: walk the Iso2Mesh mesh-data properties in
order, appending each `to_list()` value, and report whether an exception was
raised part-way.  The entries appended before the exception are kept,
because `parameters.append` has already run for them.  Returns the appended
entries and the failure flag. -/
def isoAppend : List (Option (List ℚ)) → List (List ℚ) × Bool
  | [] => ([], false)
  | some v :: rest => ((isoAppend rest).1.cons v, (isoAppend rest).2)
  | none :: _ => ([], true)

/-- The `except` body of lines 76-79: iterate over all scene objects but the
last (`bpy.data.objects[0:-1]`), skip every object without a `mua` custom
property, and append `[mua, mus, g, n]`; reading a missing `mus`, `g` or
`n` raises (modelled by `none`). -/
def fallbackParams : List BObject → Option (List (List ℚ))
  | [] => some []
  | o :: rest =>
    match o.mua with
    | none => fallbackParams rest
    | some mua =>
      match o.mus, o.g, o.n with
      | some mus, some gv, some nv =>
        (fallbackParams rest).map fun ps => [mua, mus, gv, nv] :: ps
      | _, _, _ => none

/-- Lines 70-79: build the optical-parameter list.  The Iso2Mesh path is
attempted first; on an exception (missing object, unreadable mesh data, or a
property value failing mid-loop) the fallback loop of the `except` handler
runs, and its entries are appended after whatever the `try` body had already
collected, because the handler does not reset `parameters`. -/
def getParameters (sc : Scene) : Option (List (List ℚ)) :=
  match (findObject sc.objects "Iso2Mesh").bind BObject.data with
  | none => fallbackParams sc.objects.dropLast
  | some vals =>
    match isoAppend vals with
    | (pre, true) => (fallbackParams sc.objects.dropLast).map fun ps => pre ++ ps
    | (pre, false) => some pre

/-- Lines 86-92 (`quaternion2euler`): build the rotation matrix from the
quaternion components `w, x, y, z` exactly as written in the source and
apply it to the column vector (0, 0, -1). -/
def quaternion2euler {α : Type} [CommRing α] (direction : Fin 4 → α) : Fin 3 → α :=
  let w := direction 0
  let x := direction 1
  let y := direction 2
  let z := direction 3
  let R : Matrix (Fin 3) (Fin 3) α :=
    !![1 - 2*y^2 - 2*z^2, 2*x*y - 2*z*w, 2*x*z + 2*y*w;
       2*x*y + 2*z*w, 1 - 2*x^2 - 2*z^2, 2*y*z - 2*x*w;
       2*x*z - 2*y*w, 2*y*z + 2*x*w, 1 - 2*x^2 - 2*y^2]
  R.mulVec ![0, 0, -1]

/-- The standard (Hamilton-convention) rotation matrix of a quaternion
(w, x, y, z), written from the specification sentence, independently of the
source code. -/
def rotationMatrixSpec {α : Type} [CommRing α] (w x y z : α) : Matrix (Fin 3) (Fin 3) α :=
  !![1 - 2*(y^2 + z^2), 2*(x*y - z*w), 2*(x*z + y*w);
     2*(x*y + z*w), 1 - 2*(x^2 + z^2), 2*(y*z - x*w);
     2*(x*z - y*w), 2*(y*z + x*w), 1 - 2*(x^2 + y^2)]

/-- The solver configuration dictionary `cfg` of lines 107-111.  The key
`srctype` appears twice in the source dictionary literal with the same
value, so it is a single field here. -/
structure Cfg where
  vol : VolData
  prop : List (List ℚ)
  srctype : String
  srcpos : Fin 3 → ℚ
  srcdir : Fin 3 → ℚ
  srcparam1 : Fin 4 → ℚ
  srcparam2 : Fin 4 → ℚ
  nphoton : ℚ
  unitinmm : ℚ
  tstart : ℚ
  tend : ℚ
  tstep : ℚ
  isreflect : Bool
  isnormalized : Bool
  method : String
  outputtype : String
  basisorder : ℤ
  debuglevel : String
  gpuid : String

/-- The value returned by the external call `pmcx.run(cfg)` (line 116): the
flux array (indexed x, y, z, time gate), the normalizer from `res['stat']`,
and the remaining entries of the result dictionary, all opaque to this
code. -/
structure SolverResult where
  flux : Nat → Nat → Nat → Nat → ℚ
  normalizer : ℚ
  extra : List (String × ℚ)

/-- The operator properties set in the dialog (lines 53-64). -/
structure MMCSettings where
  nphoton : ℚ
  tend : ℚ
  tstep : ℚ
  isreflect : Bool
  isnormalized : Bool
  basisorder : ℤ
  method : String
  outputtype : String
  gpuid : String
  debuglevel : String
  colormap : String

/-- The host environment of one invocation: the scene, the work folder path
(modelled from the spec: `GetBPWorkFolder` lives in the repository's `utils`
module, which is not among the analysed sources; per the spec it returns
the work folder into which serialized results are written), whether that
folder already exists, the contents of `ImageMesh.mat` (`none` models a
failing `loadmat`), and the external solver `pmcx.run` as an opaque
function. -/
structure Env where
  scene : Scene
  settings : MMCSettings
  workdir : String
  workdirExists : Bool
  imageMesh : Option (VolData × Matrix (Fin 4) (Fin 4) ℚ)
  solver : Cfg → SolverResult

/-- Line 118: the post-processed flux written to `plot_result.json` is
log10 of (first time gate / normalizer + 1). -/
noncomputable def plotFlux (res : SolverResult) : Nat → Nat → Nat → ℝ :=
  fun i j k => Real.logb 10 ((res.flux i j k 0 : ℝ) / (res.normalizer : ℝ) + 1)

/-- Contents of the serialized files written by `jd.save`. -/
inductive FileContent where
  | mmcinfo (prop : List (List ℚ)) (cfg : Cfg)
  | mcxresult (res : SolverResult)
  | plotresult (flux : Nat → Nat → Nat → ℝ) (scale : Matrix (Fin 4) (Fin 4) ℚ)

/-- Externally visible effects of one run, in program order. -/
inductive Event where
  | makedirs (path : String)
  | save (path : String) (content : FileContent)
  | solverCall (cfg : Cfg)
  | removeObject (nm : String)
  | orphansPurge (doRecursive : Bool)

/-- `os.path.join` for the relative file names used here. -/
def pathJoin (a b : String) : String := a ++ "/" ++ b

/-- Line 105: the translation column of the affine matrix. -/
def moveOf (a : Matrix (Fin 4) (Fin 4) ℚ) : Fin 3 → ℚ := ![a 0 3, a 1 3, a 2 3]

/-- Line 106: the diagonal of the affine matrix. -/
def scaleOf (a : Matrix (Fin 4) (Fin 4) ℚ) : Fin 3 → ℚ := ![a 0 0, a 1 1, a 2 2]

/-- `np.append(scale, [1])` of line 108. -/
def scaleAppend1 (a : Matrix (Fin 4) (Fin 4) ℚ) : Fin 4 → ℚ := ![a 0 0, a 1 1, a 2 2, 1]

/-- Lines 70-111: gather the scene data and build the configuration
dictionary, together with the affine matrix that line 119 reuses for
`plot_result.json`.  Note that the source position comes from the object
named "source" (lines 81-82) while the source direction comes from the
rotation quaternion of the active object `bpy.context.object`
(lines 83-84). -/
def buildCfg (env : Env) : Option (Cfg × Matrix (Fin 4) (Fin 4) ℚ) := do
  let params ← getParameters env.scene
  let src ← findObject env.scene.objects "source"
  let ctx ← env.scene.context_object
  let sp1 ← src.srcparam1
  let sp2 ← src.srcparam2
  let (vol, affine) ← env.imageMesh
  let st ← src.srctype
  let u ← src.unitinmm
  some ({ vol := vol, prop := params, srctype := st,
          srcpos := fun i => (src.location i - moveOf affine i) / scaleOf affine i,
          srcdir := quaternion2euler ctx.rotation_quaternion,
          srcparam1 := fun i => sp1 i / scaleAppend1 affine i,
          srcparam2 := fun i => sp2 i / scaleAppend1 affine i,
          nphoton := env.settings.nphoton,
          unitinmm := u * scaleOf affine 0,
          tstart := 0, tend := env.settings.tend, tstep := env.settings.tstep,
          isreflect := env.settings.isreflect, isnormalized := env.settings.isnormalized,
          method := env.settings.method, outputtype := env.settings.outputtype,
          basisorder := env.settings.basisorder, debuglevel := env.settings.debuglevel,
          gpuid := env.settings.gpuid }, affine)

/-- Lines 124-125: `for obj in bpy.data.objects: bpy.data.objects.remove(obj)`
removes objects from the collection while iterating over it.  Under the
index-based sequence iteration this performs (step i reads index i of the
already-shrunk collection), the loop removes the objects at even positions
of the original list and leaves those at odd positions.  Returns the
surviving objects and the removal events in order. -/
def removeLoop : List BObject → List BObject × List Event
  | [] => ([], [])
  | [a] => ([], [Event.removeObject a.name])
  | a :: b :: rest =>
    ((removeLoop rest).1.cons b, (removeLoop rest).2.cons (Event.removeObject a.name))

/-- State left by `preparemmc`: the effect trace and the surviving scene
objects. -/
structure PrepOutcome where
  trace : List Event
  sceneAfter : List BObject

/-- State left by `execute`: the effect trace, the surviving scene objects
and the operator return value. -/
structure ExecOutcome where
  trace : List Event
  sceneAfter : List BObject
  returned : List String

/-- Lines 66-131 (`preparemmc`): build the configuration, create the work
folder when missing, save `mmcinfo.json`, call the solver once, save the raw
result to `mcx_result.json`, save the post-processed flux and the affine
matrix to `plot_result.json`, then run the object-removal loop and purge
orphans recursively. -/
noncomputable def preparemmc (env : Env) : Option PrepOutcome :=
  (buildCfg env).map fun p =>
    { trace :=
        (if env.workdirExists then [] else [Event.makedirs env.workdir]) ++
        [Event.save (pathJoin env.workdir "mmcinfo.json") (FileContent.mmcinfo p.1.prop p.1),
         Event.solverCall p.1,
         Event.save (pathJoin env.workdir "mcx_result.json")
           (FileContent.mcxresult (env.solver p.1)),
         Event.save (pathJoin env.workdir "plot_result.json")
           (FileContent.plotresult (plotFlux (env.solver p.1)) p.2)] ++
        (removeLoop env.scene.objects).2 ++ [Event.orphansPurge true],
      sceneAfter := (removeLoop env.scene.objects).1 }

/-- Lines 133-136 (`execute`): run `preparemmc` and return `{"FINISHED"}`;
an exception raised inside `preparemmc` propagates (`none`). -/
noncomputable def execute (env : Env) : Option ExecOutcome :=
  (preparemmc env).map fun o =>
    { trace := o.trace, sceneAfter := o.sceneAfter, returned := ["FINISHED"] }

/-- The `jd.save` events of a trace, in order. -/
def saveEvents (t : List Event) : List (String × FileContent) :=
  t.filterMap fun e =>
    match e with
    | Event.save p c => some (p, c)
    | _ => none

/-- Recognize the external solver invocation in a trace. -/
def isSolverCall : Event → Bool
  | Event.solverCall _ => true
  | _ => false

/-! ### Helper lemmas -/

/-- Inversion of a successful `buildCfg`: every scene read succeeded and the
configuration is the record of lines 107-111. -/
theorem buildCfg_inv {env : Env} {c : Cfg} {affine : Matrix (Fin 4) (Fin 4) ℚ}
    (h : buildCfg env = some (c, affine)) :
    ∃ params src ctx sp1 sp2 vol st u,
      getParameters env.scene = some params ∧
      findObject env.scene.objects "source" = some src ∧
      env.scene.context_object = some ctx ∧
      src.srcparam1 = some sp1 ∧
      src.srcparam2 = some sp2 ∧
      env.imageMesh = some (vol, affine) ∧
      src.srctype = some st ∧
      src.unitinmm = some u ∧
      c = { vol := vol, prop := params, srctype := st,
            srcpos := fun i => (src.location i - moveOf affine i) / scaleOf affine i,
            srcdir := quaternion2euler ctx.rotation_quaternion,
            srcparam1 := fun i => sp1 i / scaleAppend1 affine i,
            srcparam2 := fun i => sp2 i / scaleAppend1 affine i,
            nphoton := env.settings.nphoton,
            unitinmm := u * scaleOf affine 0,
            tstart := 0, tend := env.settings.tend, tstep := env.settings.tstep,
            isreflect := env.settings.isreflect, isnormalized := env.settings.isnormalized,
            method := env.settings.method, outputtype := env.settings.outputtype,
            basisorder := env.settings.basisorder, debuglevel := env.settings.debuglevel,
            gpuid := env.settings.gpuid } := by
  simp only [buildCfg, Option.bind_eq_bind, Option.bind_eq_some, Option.some.injEq,
    Prod.mk.injEq] at h
  obtain ⟨params, h1, src, h2, ctx, h3, sp1, h4, sp2, h5, ⟨vol, aff⟩, h6, st, h7, u, h8,
    h9, h10⟩ := h
  subst h10
  exact ⟨params, src, ctx, sp1, sp2, vol, st, u, h1, h2, h3, h4, h5, h6, h7, h8, h9.symm⟩

/-- Inversion of a successful `execute`: it is a successful `preparemmc`
with the trace of lines 99-126 and return value `{"FINISHED"}`. -/
theorem execute_inv {env : Env} {out : ExecOutcome}
    (h : execute env = some out) :
    ∃ cfg affine, buildCfg env = some (cfg, affine) ∧
      out.trace =
        (if env.workdirExists then [] else [Event.makedirs env.workdir]) ++
        [Event.save (pathJoin env.workdir "mmcinfo.json") (FileContent.mmcinfo cfg.prop cfg),
         Event.solverCall cfg,
         Event.save (pathJoin env.workdir "mcx_result.json")
           (FileContent.mcxresult (env.solver cfg)),
         Event.save (pathJoin env.workdir "plot_result.json")
           (FileContent.plotresult (plotFlux (env.solver cfg)) affine)] ++
        (removeLoop env.scene.objects).2 ++ [Event.orphansPurge true] ∧
      out.sceneAfter = (removeLoop env.scene.objects).1 ∧
      out.returned = ["FINISHED"] := by
  simp only [execute, preparemmc, Option.map_map, Option.map_eq_some'] at h
  obtain ⟨⟨cfg, affine⟩, h1, h2⟩ := h
  subst h2
  exact ⟨cfg, affine, h1, rfl, rfl, rfl⟩

/-- The removal loop performs no `jd.save`. -/
theorem removeLoop_saveEvents : ∀ l : List BObject, saveEvents (removeLoop l).2 = []
  | [] => rfl
  | [_] => rfl
  | _ :: _ :: rest => by
    simpa [removeLoop, saveEvents] using removeLoop_saveEvents rest

/-- The removal loop performs no solver call. -/
theorem removeLoop_countP : ∀ l : List BObject, (removeLoop l).2.countP isSolverCall = 0
  | [] => rfl
  | [_] => rfl
  | _ :: _ :: rest => by
    simpa [removeLoop, List.countP_cons, isSolverCall] using removeLoop_countP rest

/-- The removal loop emits only `removeObject` events. -/
theorem removeLoop_only_removes :
    ∀ (l : List BObject) (e : Event), e ∈ (removeLoop l).2 → ∃ nm, e = Event.removeObject nm
  | [], _, h => by simp [removeLoop] at h
  | [a], e, h => by
    simp only [removeLoop, List.mem_singleton] at h
    exact ⟨a.name, h⟩
  | a :: b :: rest, e, h => by
    simp only [removeLoop, List.cons, List.mem_cons] at h
    rcases h with h | h
    · exact ⟨a.name, h⟩
    · exact removeLoop_only_removes rest e h

/-! ### Concrete sample data -/

/-- Dialog settings mirroring the defaults of lines 29-40 (with unit time
gates to stay rational). -/
def sampleSettings : MMCSettings :=
  { nphoton := 10000, tend := 1, tstep := 1, isreflect := true, isnormalized := true,
    basisorder := 1, method := "grid", outputtype := "flux", gpuid := "1",
    debuglevel := "TP", colormap := "jet" }

/-- An `Iso2Mesh` object whose mesh data holds one optical-parameter row. -/
def sampleIso : BObject :=
  { name := "Iso2Mesh", location := ![0, 0, 0], rotation_quaternion := ![1, 0, 0, 0],
    data := some [some [1, 2, 3, 4]] }

/-- A light-source object with the identity orientation. -/
def sampleSource : BObject :=
  { name := "source", location := ![1, 2, 3], rotation_quaternion := ![1, 0, 0, 0],
    srcparam1 := some ![1, 2, 3, 4], srcparam2 := some ![5, 6, 7, 8],
    srctype := some "pencil", unitinmm := some 1 }

/-- An anisotropic affine matrix with translation column (10, 20, 30). -/
def sampleAffine : Matrix (Fin 4) (Fin 4) ℚ := !![2,0,0,10; 0,3,0,20; 0,0,4,30; 0,0,0,1]

def sampleVol : VolData := fun _ _ _ => 1

def sampleRes : SolverResult := { flux := fun _ _ _ _ => 9, normalizer := 1, extra := [] }

/-- A complete environment in which the run succeeds; the source object is
also the active object. -/
def sampleEnv : Env :=
  { scene := { objects := [sampleIso, sampleSource], context_object := some sampleSource },
    settings := sampleSettings, workdir := "bpw", workdirExists := true,
    imageMesh := some (sampleVol, sampleAffine), solver := fun _ => sampleRes }

/-- An active object distinct from the source, rotated half a turn about x. -/
def ctxCube : BObject :=
  { name := "Cube", location := ![0, 0, 0], rotation_quaternion := ![0, 1, 0, 0] }

/-- Same scene as `sampleEnv` but the active object is `ctxCube`, not the
source. -/
def envC2 : Env :=
  { sampleEnv with
    scene := { objects := [sampleIso, sampleSource, ctxCube],
               context_object := some ctxCube } }

/-- A tissue region carrying the four optical custom properties. -/
def tissueObj : BObject :=
  { name := "tissue", location := ![0, 0, 0], rotation_quaternion := ![1, 0, 0, 0],
    mua := some 5, mus := some 6, g := some 7, n := some 8 }

/-- An `Iso2Mesh` object whose second mesh property fails `to_list()`. -/
def isoBad : BObject := { sampleIso with data := some [some [1, 2, 3, 4], none] }

/-- Scene in which the Iso2Mesh walk raises after one successful append. -/
def sceneC10 : Scene := { objects := [isoBad, tissueObj, sampleSource], context_object := none }

/-- Scene with no `Iso2Mesh` object at all. -/
def sceneC10W : Scene := { objects := [tissueObj, sampleSource], context_object := none }

/-- Closed form of `quaternion2euler`: the negated third column of the
rotation matrix (the image of (0, 0, -1)). -/
theorem quaternion2euler_apply {α : Type} [CommRing α] (d : Fin 4 → α) :
    quaternion2euler d =
      ![-(2 * d 1 * d 3 + 2 * d 2 * d 0),
        -(2 * d 2 * d 3 - 2 * d 1 * d 0),
        -(1 - 2 * d 1 ^ 2 - 2 * d 2 ^ 2)] := by
  funext i
  fin_cases i <;>
    simp [quaternion2euler, Matrix.mulVec, Matrix.dotProduct, Fin.sum_univ_succ]

/-- `saveEvents` distributes over trace concatenation. -/
theorem saveEvents_append (a b : List Event) :
    saveEvents (a ++ b) = saveEvents a ++ saveEvents b :=
  List.filterMap_append a b _

/-- C3: for every quaternion input (w, x, y, z), `quaternion2euler` returns
the product of the standard quaternion rotation matrix with the reference
column vector (0, 0, -1); in particular, at the identity quaternion
(1, 0, 0, 0) it returns [0, 0, -1]. -/
theorem quaternion2euler_is_rotation :
    (∀ d : Fin 4 → ℚ, quaternion2euler d =
      Matrix.mulVec (rotationMatrixSpec (d 0) (d 1) (d 2) (d 3)) ![0, 0, -1]) ∧
    quaternion2euler (![1, 0, 0, 0] : Fin 4 → ℚ) = ![0, 0, -1] := by
  constructor
  · intro d
    funext i
    fin_cases i <;>
      simp [quaternion2euler, rotationMatrixSpec, Matrix.mulVec, Matrix.dotProduct,
        Fin.sum_univ_succ] <;> ring
  · rw [quaternion2euler_apply]
    funext i
    fin_cases i <;> norm_num

/-- C7: for every unit quaternion, the direction vector returned by
`quaternion2euler` has Euclidean norm 1. -/
theorem quaternion2euler_unit_norm (d : Fin 4 → ℝ)
    (h : d 0 ^ 2 + d 1 ^ 2 + d 2 ^ 2 + d 3 ^ 2 = 1) :
    Real.sqrt (quaternion2euler d 0 ^ 2 + quaternion2euler d 1 ^ 2 +
      quaternion2euler d 2 ^ 2) = 1 := by
  have key : quaternion2euler d 0 ^ 2 + quaternion2euler d 1 ^ 2 +
      quaternion2euler d 2 ^ 2 = 1 := by
    rw [quaternion2euler_apply]
    simp only [Matrix.cons_val_zero, Matrix.cons_val_one, Matrix.head_cons,
      Matrix.cons_val_two, Matrix.tail_cons]
    linear_combination (4 * (d 1 ^ 2 + d 2 ^ 2)) * h
  rw [key]
  exact Real.sqrt_one

/-- Witness for C7 at the identity quaternion. -/
theorem quaternion2euler_unit_norm_witness :
    ((![1, 0, 0, 0] : Fin 4 → ℝ) 0 ^ 2 + (![1, 0, 0, 0] : Fin 4 → ℝ) 1 ^ 2 +
      (![1, 0, 0, 0] : Fin 4 → ℝ) 2 ^ 2 + (![1, 0, 0, 0] : Fin 4 → ℝ) 3 ^ 2 = 1) ∧
    Real.sqrt (quaternion2euler (![1, 0, 0, 0] : Fin 4 → ℝ) 0 ^ 2 +
      quaternion2euler (![1, 0, 0, 0] : Fin 4 → ℝ) 1 ^ 2 +
      quaternion2euler (![1, 0, 0, 0] : Fin 4 → ℝ) 2 ^ 2) = 1 :=
  ⟨by norm_num, quaternion2euler_unit_norm ![1, 0, 0, 0] (by norm_num)⟩

/-- The canonical trace of a successful run saves exactly the three files,
in order. -/
theorem saveEvents_canonical (env : Env) (cfg : Cfg)
    (affine : Matrix (Fin 4) (Fin 4) ℚ) :
    saveEvents ((if env.workdirExists then [] else [Event.makedirs env.workdir]) ++
      [Event.save (pathJoin env.workdir "mmcinfo.json") (FileContent.mmcinfo cfg.prop cfg),
       Event.solverCall cfg,
       Event.save (pathJoin env.workdir "mcx_result.json")
         (FileContent.mcxresult (env.solver cfg)),
       Event.save (pathJoin env.workdir "plot_result.json")
         (FileContent.plotresult (plotFlux (env.solver cfg)) affine)] ++
      (removeLoop env.scene.objects).2 ++ [Event.orphansPurge true]) =
    [(pathJoin env.workdir "mmcinfo.json", FileContent.mmcinfo cfg.prop cfg),
     (pathJoin env.workdir "mcx_result.json", FileContent.mcxresult (env.solver cfg)),
     (pathJoin env.workdir "plot_result.json",
       FileContent.plotresult (plotFlux (env.solver cfg)) affine)] := by
  have hr := removeLoop_saveEvents env.scene.objects
  cases hw : env.workdirExists <;>
    simp only [hw, if_true, if_false, Bool.false_eq_true, saveEvents_append, hr] <;> rfl

/-- The canonical trace contains exactly one solver call. -/
theorem countP_canonical (env : Env) (cfg : Cfg)
    (affine : Matrix (Fin 4) (Fin 4) ℚ) :
    ((if env.workdirExists then [] else [Event.makedirs env.workdir]) ++
      [Event.save (pathJoin env.workdir "mmcinfo.json") (FileContent.mmcinfo cfg.prop cfg),
       Event.solverCall cfg,
       Event.save (pathJoin env.workdir "mcx_result.json")
         (FileContent.mcxresult (env.solver cfg)),
       Event.save (pathJoin env.workdir "plot_result.json")
         (FileContent.plotresult (plotFlux (env.solver cfg)) affine)] ++
      (removeLoop env.scene.objects).2 ++ [Event.orphansPurge true]).countP isSolverCall
      = 1 := by
  cases hw : env.workdirExists <;>
    simp [hw, List.countP_append, List.countP_cons, isSolverCall,
      removeLoop_countP env.scene.objects]

/-- C1: every successful invocation of `execute` performs the full pipeline
in order — the scene is read into one configuration, the solver is invoked
exactly once on it, the results are saved, and `{"FINISHED"}` is
returned. -/
theorem execute_full_pipeline (env : Env) (out : ExecOutcome)
    (h : execute env = some out) :
    out.returned = ["FINISHED"] ∧
    ∃ cfg affine, buildCfg env = some (cfg, affine) ∧
      out.trace =
        (if env.workdirExists then [] else [Event.makedirs env.workdir]) ++
        [Event.save (pathJoin env.workdir "mmcinfo.json") (FileContent.mmcinfo cfg.prop cfg),
         Event.solverCall cfg,
         Event.save (pathJoin env.workdir "mcx_result.json")
           (FileContent.mcxresult (env.solver cfg)),
         Event.save (pathJoin env.workdir "plot_result.json")
           (FileContent.plotresult (plotFlux (env.solver cfg)) affine)] ++
        (removeLoop env.scene.objects).2 ++ [Event.orphansPurge true] ∧
      out.trace.countP isSolverCall = 1 := by
  obtain ⟨cfg, affine, h1, h2, h3, h4⟩ := execute_inv h
  refine ⟨h4, cfg, affine, h1, h2, ?_⟩
  rw [h2]
  exact countP_canonical env cfg affine

/-- Witness for C1 on the concrete environment `sampleEnv`. -/
theorem execute_full_pipeline_witness :
    ∃ out, execute sampleEnv = some out ∧ out.returned = ["FINISHED"] ∧
      out.trace.countP isSolverCall = 1 := by
  obtain ⟨out, h⟩ : ∃ out, execute sampleEnv = some out := ⟨_, rfl⟩
  obtain ⟨h1, cfg, affine, _, _, h5⟩ := execute_full_pipeline sampleEnv out h
  exact ⟨out, h, h1, h5⟩

/-- C5: the program performs no transport computation itself — the result
saved to `mcx_result.json` is exactly the return value of the single
`pmcx.run(cfg)` call, and the plotted flux is computed from that return
value alone. -/
theorem solver_delegation (env : Env) (out : ExecOutcome)
    (h : execute env = some out) :
    ∃ cfg affine,
      out.trace.countP isSolverCall = 1 ∧
      Event.solverCall cfg ∈ out.trace ∧
      (pathJoin env.workdir "mcx_result.json",
        FileContent.mcxresult (env.solver cfg)) ∈ saveEvents out.trace ∧
      (pathJoin env.workdir "plot_result.json",
        FileContent.plotresult (plotFlux (env.solver cfg)) affine) ∈ saveEvents out.trace := by
  obtain ⟨cfg, affine, h1, h2, h3, h4⟩ := execute_inv h
  refine ⟨cfg, affine, ?_, ?_, ?_, ?_⟩
  · rw [h2]; exact countP_canonical env cfg affine
  · rw [h2]; simp
  · rw [h2, saveEvents_canonical]; simp
  · rw [h2, saveEvents_canonical]; simp

/-- Witness for C5 on the concrete environment `sampleEnv`. -/
theorem solver_delegation_witness :
    ∃ out, execute sampleEnv = some out ∧
      ∃ cfg affine,
        out.trace.countP isSolverCall = 1 ∧
        Event.solverCall cfg ∈ out.trace ∧
        (pathJoin sampleEnv.workdir "mcx_result.json",
          FileContent.mcxresult (sampleEnv.solver cfg)) ∈ saveEvents out.trace ∧
        (pathJoin sampleEnv.workdir "plot_result.json",
          FileContent.plotresult (plotFlux (sampleEnv.solver cfg)) affine)
          ∈ saveEvents out.trace := by
  obtain ⟨out, h⟩ : ∃ out, execute sampleEnv = some out := ⟨_, rfl⟩
  exact ⟨out, h, solver_delegation sampleEnv out h⟩

/-- C6: every successful run writes exactly three serialized files into the
work folder — `mmcinfo.json` (parameters and full configuration) before the
solver call, then `mcx_result.json` (raw result) and `plot_result.json`
(post-processed flux with the affine matrix) — creating the folder first
when it does not exist. -/
theorem three_output_files (env : Env) (out : ExecOutcome)
    (h : execute env = some out) :
    ∃ cfg affine pre post,
      saveEvents out.trace =
        [(pathJoin env.workdir "mmcinfo.json", FileContent.mmcinfo cfg.prop cfg),
         (pathJoin env.workdir "mcx_result.json", FileContent.mcxresult (env.solver cfg)),
         (pathJoin env.workdir "plot_result.json",
           FileContent.plotresult (plotFlux (env.solver cfg)) affine)] ∧
      out.trace = pre ++ Event.solverCall cfg :: post ∧
      saveEvents pre =
        [(pathJoin env.workdir "mmcinfo.json", FileContent.mmcinfo cfg.prop cfg)] ∧
      (env.workdirExists = false → out.trace.head? = some (Event.makedirs env.workdir)) ∧
      (env.workdirExists = true → ∀ p, Event.makedirs p ∉ out.trace) := by
  obtain ⟨cfg, affine, h1, h2, h3, h4⟩ := execute_inv h
  refine ⟨cfg, affine,
    (if env.workdirExists then [] else [Event.makedirs env.workdir]) ++
      [Event.save (pathJoin env.workdir "mmcinfo.json") (FileContent.mmcinfo cfg.prop cfg)],
    Event.save (pathJoin env.workdir "mcx_result.json")
        (FileContent.mcxresult (env.solver cfg)) ::
      Event.save (pathJoin env.workdir "plot_result.json")
        (FileContent.plotresult (plotFlux (env.solver cfg)) affine) ::
      ((removeLoop env.scene.objects).2 ++ [Event.orphansPurge true]),
    ?_, ?_, ?_, ?_, ?_⟩
  · rw [h2]; exact saveEvents_canonical env cfg affine
  · rw [h2]; simp
  · cases hw : env.workdirExists <;>
      simp only [hw, if_true, if_false, Bool.false_eq_true, saveEvents_append] <;> rfl
  · intro hw
    rw [h2, hw]
    rfl
  · intro hw p hp
    rw [h2] at hp
    simp [hw] at hp
    obtain ⟨nm, hnm⟩ := removeLoop_only_removes env.scene.objects _ hp
    exact Event.noConfusion hnm

/-- Witness for C6 on the concrete environment `sampleEnv`: the three file
paths, in order. -/
theorem three_output_files_witness :
    ∃ out, execute sampleEnv = some out ∧
      (saveEvents out.trace).map Prod.fst =
        ["bpw/mmcinfo.json", "bpw/mcx_result.json", "bpw/plot_result.json"] := by
  obtain ⟨out, h⟩ : ∃ out, execute sampleEnv = some out := ⟨_, rfl⟩
  obtain ⟨cfg, affine, pre, post, hs, _, _, _, _⟩ := three_output_files sampleEnv out h
  refine ⟨out, h, ?_⟩
  rw [hs]
  rfl

/-- C9: the flux stored in `plot_result.json` is the elementwise transform
log10(f / normalizer + 1) of the first time gate (index 0 of the last axis)
of the solver's flux array, and a zero-flux voxel is mapped to exactly 0. -/
theorem plot_flux_transform (env : Env) (out : ExecOutcome)
    (h : execute env = some out) :
    ∃ cfg affine,
      (pathJoin env.workdir "mcx_result.json",
        FileContent.mcxresult (env.solver cfg)) ∈ saveEvents out.trace ∧
      (pathJoin env.workdir "plot_result.json",
        FileContent.plotresult
          (fun i j k => Real.logb 10
            (((env.solver cfg).flux i j k 0 : ℝ) / ((env.solver cfg).normalizer : ℝ) + 1))
          affine) ∈ saveEvents out.trace ∧
      (∀ i j k : Nat, (env.solver cfg).flux i j k 0 = 0 →
        Real.logb 10 (((env.solver cfg).flux i j k 0 : ℝ) /
          ((env.solver cfg).normalizer : ℝ) + 1) = 0) := by
  obtain ⟨cfg, affine, h1, h2, h3, h4⟩ := execute_inv h
  refine ⟨cfg, affine, ?_, ?_, ?_⟩
  · rw [h2, saveEvents_canonical]; simp
  · rw [h2, saveEvents_canonical]
    have hpf : plotFlux (env.solver cfg) = fun i j k => Real.logb 10
        (((env.solver cfg).flux i j k 0 : ℝ) / ((env.solver cfg).normalizer : ℝ) + 1) := rfl
    rw [← hpf]
    simp
  · intro i j k hz
    rw [hz]
    simp

/-- Witness for C9 on the concrete environment `sampleEnv`. -/
theorem plot_flux_transform_witness :
    ∃ out, execute sampleEnv = some out ∧
      ∃ cfg affine,
        (pathJoin sampleEnv.workdir "mcx_result.json",
          FileContent.mcxresult (sampleEnv.solver cfg)) ∈ saveEvents out.trace ∧
        (pathJoin sampleEnv.workdir "plot_result.json",
          FileContent.plotresult
            (fun i j k => Real.logb 10
              (((sampleEnv.solver cfg).flux i j k 0 : ℝ) /
                ((sampleEnv.solver cfg).normalizer : ℝ) + 1))
            affine) ∈ saveEvents out.trace ∧
        (∀ i j k : Nat, (sampleEnv.solver cfg).flux i j k 0 = 0 →
          Real.logb 10 (((sampleEnv.solver cfg).flux i j k 0 : ℝ) /
            ((sampleEnv.solver cfg).normalizer : ℝ) + 1) = 0) := by
  obtain ⟨out, h⟩ : ∃ out, execute sampleEnv = some out := ⟨_, rfl⟩
  exact ⟨out, h, plot_flux_transform sampleEnv out h⟩

/-- C2 counterexample: in `envC2` the object named "source" exists and its
own quaternion (the identity) would give the direction [0, 0, -1], yet the
configuration's source direction is [0, 0, 1] — the direction of the active
object `ctxCube`, which lines 83-84 read instead of the source object. -/
theorem srcdir_counterexample :
    (findObject envC2.scene.objects "source").map
        (fun o => quaternion2euler o.rotation_quaternion) = some ![0, 0, -1] ∧
    (buildCfg envC2).map (fun p => p.1.srcdir) = some ![0, 0, 1] ∧
    (![0, 0, 1] : Fin 3 → ℚ) ≠ ![0, 0, -1] := by
  refine ⟨?_, ?_, by decide⟩
  · have h : (findObject envC2.scene.objects "source").map
        (fun o => quaternion2euler o.rotation_quaternion) =
        some (quaternion2euler ![1, 0, 0, 0]) := rfl
    rw [h, quaternion2euler_apply]
    norm_num
  · have h : (buildCfg envC2).map (fun p => p.1.srcdir) =
        some (quaternion2euler ![0, 1, 0, 0]) := rfl
    rw [h, quaternion2euler_apply]
    norm_num

/-- C2 (amended): the source direction written into the configuration is
derived from the rotation quaternion of the active object
`bpy.context.object`; it coincides with the orientation of the object named
"source" only when that object is the active one.  The "source" object
supplies the position. -/
theorem srcdir_from_context_object (env : Env) (c : Cfg)
    (affine : Matrix (Fin 4) (Fin 4) ℚ) (h : buildCfg env = some (c, affine)) :
    ∃ ctx, env.scene.context_object = some ctx ∧
      c.srcdir = quaternion2euler ctx.rotation_quaternion := by
  obtain ⟨params, src, ctx, sp1, sp2, vol, st, u, _, _, h3, _, _, _, _, _, hc⟩ :=
    buildCfg_inv h
  exact ⟨ctx, h3, by rw [hc]⟩

/-- Witness for the amended C2 on the concrete environment `envC2`. -/
theorem srcdir_from_context_object_witness :
    ∃ c affine, buildCfg envC2 = some (c, affine) ∧
      ∃ ctx, envC2.scene.context_object = some ctx ∧
        c.srcdir = quaternion2euler ctx.rotation_quaternion := by
  obtain ⟨c, affine, h⟩ : ∃ c affine, buildCfg envC2 = some (c, affine) := ⟨_, _, rfl⟩
  exact ⟨c, affine, h, srcdir_from_context_object envC2 c affine h⟩

/-- C4: the affine rescaling of the source is componentwise — the source
position is (location - t) / s with t the translation column (entries
[0,3], [1,3], [2,3]) and s the diagonal (entries [0,0], [1,1], [2,2]) of
the affine matrix; the four-component source parameters are divided by
(s_x, s_y, s_z, 1); and `unitinmm` is multiplied by the [0,0] entry only. -/
theorem srcpos_affine_rescaling (env : Env) (c : Cfg)
    (affine : Matrix (Fin 4) (Fin 4) ℚ) (h : buildCfg env = some (c, affine)) :
    ∃ src sp1 sp2 u,
      findObject env.scene.objects "source" = some src ∧
      src.srcparam1 = some sp1 ∧ src.srcparam2 = some sp2 ∧ src.unitinmm = some u ∧
      (∀ i : Fin 3, c.srcpos i =
        (src.location i - ![affine 0 3, affine 1 3, affine 2 3] i) /
          ![affine 0 0, affine 1 1, affine 2 2] i) ∧
      (∀ i : Fin 4, c.srcparam1 i = sp1 i / ![affine 0 0, affine 1 1, affine 2 2, 1] i) ∧
      (∀ i : Fin 4, c.srcparam2 i = sp2 i / ![affine 0 0, affine 1 1, affine 2 2, 1] i) ∧
      c.unitinmm = u * affine 0 0 := by
  obtain ⟨params, src, ctx, sp1, sp2, vol, st, u, _, h2, _, h4, h5, _, _, h8, hc⟩ :=
    buildCfg_inv h
  subst hc
  exact ⟨src, sp1, sp2, u, h2, h4, h5, h8,
    fun i => rfl, fun i => rfl, fun i => rfl, rfl⟩

/-- Witness for C4 on the concrete environment `sampleEnv`. -/
theorem srcpos_affine_rescaling_witness :
    ∃ c affine, buildCfg sampleEnv = some (c, affine) ∧
      ∃ src sp1 sp2 u,
        findObject sampleEnv.scene.objects "source" = some src ∧
        src.srcparam1 = some sp1 ∧ src.srcparam2 = some sp2 ∧ src.unitinmm = some u ∧
        (∀ i : Fin 3, c.srcpos i =
          (src.location i - ![affine 0 3, affine 1 3, affine 2 3] i) /
            ![affine 0 0, affine 1 1, affine 2 2] i) ∧
        (∀ i : Fin 4, c.srcparam1 i = sp1 i / ![affine 0 0, affine 1 1, affine 2 2, 1] i) ∧
        (∀ i : Fin 4, c.srcparam2 i = sp2 i / ![affine 0 0, affine 1 1, affine 2 2, 1] i) ∧
        c.unitinmm = u * affine 0 0 := by
  obtain ⟨c, affine, h⟩ : ∃ c affine, buildCfg sampleEnv = some (c, affine) := ⟨_, _, rfl⟩
  exact ⟨c, affine, h, srcpos_affine_rescaling sampleEnv c affine h⟩

/-- C8 (code bug): on the two-object scene of `sampleEnv` the removal loop
of lines 124-125, which mutates `bpy.data.objects` while iterating over it,
leaves the object at position 1 (the source) in the scene, although the
intent (the comment "remove all object") is to empty it; the purge of
line 126 still runs. -/
theorem remove_loop_leaves_object :
    (execute sampleEnv).map (fun o => o.sceneAfter.map BObject.name) = some ["source"] ∧
    (["source"] : List String) ≠ [] ∧
    ∃ out, execute sampleEnv = some out ∧ Event.orphansPurge true ∈ out.trace := by
  refine ⟨rfl, by decide, ?_⟩
  obtain ⟨out, h⟩ : ∃ out, execute sampleEnv = some out := ⟨_, rfl⟩
  obtain ⟨cfg, affine, _, h2, _, _⟩ := execute_inv h
  refine ⟨out, h, ?_⟩
  rw [h2]
  simp

/-- C10 counterexample: in `sceneC10` a mesh property of "Iso2Mesh" raises
after one entry has been appended, and the resulting parameter list is that
entry followed by the fallback entries — not the fallback list alone, as
the claim's "instead" would require. -/
theorem parameters_partial_append_counterexample :
    getParameters sceneC10 = some [[1, 2, 3, 4], [5, 6, 7, 8]] ∧
    fallbackParams sceneC10.objects.dropLast = some [[5, 6, 7, 8]] ∧
    ([[(1 : ℚ), 2, 3, 4], [5, 6, 7, 8]] : List (List ℚ)) ≠ [[5, 6, 7, 8]] :=
  ⟨by decide, by decide, by decide⟩

/-- C10 (amended): when the Iso2Mesh read raises before any property is
appended, the parameter list is exactly the fallback list; when it raises
mid-loop, the fallback list is appended after the entries already collected.
The fallback list itself iterates over all scene objects except the last,
skips every object lacking a `mua` property, and appends [mua, mus, g, n]
in scene order. -/
theorem parameters_fallback (sc : Scene) :
    ((findObject sc.objects "Iso2Mesh").bind BObject.data = none →
      getParameters sc = fallbackParams sc.objects.dropLast) ∧
    (∀ vals pre, (findObject sc.objects "Iso2Mesh").bind BObject.data = some vals →
      isoAppend vals = (pre, true) →
      getParameters sc = (fallbackParams sc.objects.dropLast).map fun ps => pre ++ ps) ∧
    (∀ l : List BObject,
      (∀ o ∈ l, o.mua.isSome = true → (o.mus.isSome ∧ o.g.isSome ∧ o.n.isSome)) →
      fallbackParams l = some ((l.filter fun o => o.mua.isSome).map
        fun o => [o.mua.getD 0, o.mus.getD 0, o.g.getD 0, o.n.getD 0])) := by
  refine ⟨?_, ?_, ?_⟩
  · intro h
    simp [getParameters, h]
  · intro vals pre h1 h2
    simp [getParameters, h1, h2]
  · intro l
    induction l with
    | nil => intro _; rfl
    | cons o rest ih =>
      intro hall
      have hrest := ih fun o' ho' => hall o' (List.mem_cons_of_mem o ho')
      cases hmua : o.mua with
      | none =>
        simp only [fallbackParams, hmua, List.filter_cons]
        rw [hrest]
        simp [hmua]
      | some mua =>
        obtain ⟨h1, h2, h3⟩ := hall o (List.mem_cons_self o rest) (by simp [hmua])
        obtain ⟨mus, hmus⟩ := Option.isSome_iff_exists.mp h1
        obtain ⟨gv, hg⟩ := Option.isSome_iff_exists.mp h2
        obtain ⟨nv, hn⟩ := Option.isSome_iff_exists.mp h3
        simp only [fallbackParams, hmua, hmus, hg, hn, List.filter_cons]
        rw [hrest]
        simp [hmua, hmus, hg, hn]

/-- Witness for the amended C10: on `sceneC10W` (no Iso2Mesh object) the
parameter list is exactly the fallback list, and the fallback list over
`[tissueObj]` is the object's [mua, mus, g, n] row. -/
theorem parameters_fallback_witness :
    ((findObject sceneC10W.objects "Iso2Mesh").bind BObject.data = none) ∧
    getParameters sceneC10W = fallbackParams sceneC10W.objects.dropLast ∧
    fallbackParams [tissueObj] = some [[5, 6, 7, 8]] := by
  refine ⟨rfl, (parameters_fallback sceneC10W).1 rfl, ?_⟩
  have h3 := (parameters_fallback sceneC10W).2.2 [tissueObj] (by decide)
  exact h3.trans (by decide)
